import Mathlib

/-
Shallow embedding of the capture_moments repository:
  src/app.py     - Flask request handlers (home, book, login, logout, ...)
  src/awsint.py  - AWSIntegration gateway methods (upload_photo,
                   generate_presigned_url, create_photo_gallery,
                   send_notification_email, send_sms_notification)

External collaborators (the boto3 S3/SES/SNS clients) are modelled as oracle
functions passed in as parameters; an oracle returns `Except Exn α`, where an
`Exn.error` value models the underlying client call raising an exception.
Python exception handling is modelled by matching on the oracle result: an
exception kind listed in an except-clause of the source is converted exactly
as the source converts it, and any other kind is re-raised, i.e. the gateway
method itself returns `Except.error`.  Log calls are modelled by a list of
log lines carried in the result.
-/

namespace CaptureMoments

/-- Exception kinds relevant to src/awsint.py: `clientError` models
botocore ClientError, `fileNotFound` models FileNotFoundError, and
`other` models any other exception (only caught by a bare
`except Exception` clause). -/
inductive Exn where
  | clientError
  | fileNotFound
  | other
  deriving DecidableEq, Repr

/-- Result of one gateway method call: the returned value (or a propagated
exception) together with the log lines emitted during the call. -/
structure GwResult (α : Type) where
  result : Except Exn α
  log : List String
  deriving Repr

/-- Did the call return normally (no exception propagated to the caller)? -/
def returns_normally {α : Type} : Except Exn α → Bool
  | .ok _ => true
  | .error _ => false

/-- The s3_metadata dict built at the top of upload_photo; upload_date is
datetime.now().isoformat(), passed in here as `now`. -/
structure S3Metadata where
  upload_date : String
  photographer : String
  event_type : String
  location : String
  deriving DecidableEq, Repr

/-- The optional caller-supplied metadata dict of upload_photo. -/
structure PhotoMeta where
  photographer : Option String
  event_type : Option String
  location : Option String
  deriving DecidableEq, Repr

/-- `metadata.get(key, default) if metadata else default` for the three
metadata fields of upload_photo (defaults Unknown / General / India). -/
def mk_s3_metadata (now : String) (metadata : Option PhotoMeta) : S3Metadata :=
  match metadata with
  | none => ⟨now, "Unknown", "General", "India"⟩
  | some m =>
    ⟨now, m.photographer.getD "Unknown", m.event_type.getD "General",
      m.location.getD "India"⟩

/-- AWSIntegration.upload_photo (src/awsint.py lines 36-82).
`uploadFile` is the oracle for `self.s3_client.upload_file(file_path,
bucket_name, file_name, ExtraArgs=...)`; the constant ContentType and ACL
extra-args are not modelled.  Catches FileNotFoundError, ClientError and
Exception, each converted to a None result plus a log line; on success
returns the deterministic bucket/region/key URL. -/
def upload_photo (uploadFile : String → String → String → S3Metadata → Except Exn Unit)
    (bucket_name region_name now file_path file_name : String)
    (metadata : Option PhotoMeta) : GwResult (Option String) :=
  let s3_metadata := mk_s3_metadata now metadata
  match uploadFile file_path bucket_name file_name s3_metadata with
  | .ok _ =>
    let url := "https://" ++ bucket_name ++ ".s3." ++ region_name
      ++ ".amazonaws.com/" ++ file_name
    ⟨.ok (some url), ["Photo uploaded successfully: " ++ url]⟩
  | .error .fileNotFound => ⟨.ok none, ["File not found: " ++ file_path]⟩
  | .error .clientError => ⟨.ok none, ["Error uploading photo"]⟩
  | .error .other => ⟨.ok none, ["Unexpected error uploading photo"]⟩

/-- AWSIntegration.generate_presigned_url (src/awsint.py lines 84-106).
`presign` is the oracle for `self.s3_client.generate_presigned_url` applied
to the file name and the expiration.  The source catches ONLY ClientError
(converted to None plus a log line); any other exception propagates. -/
def generate_presigned_url (presign : String → Nat → Except Exn String)
    (file_name : String) (expiration : Nat) : GwResult (Option String) :=
  match presign file_name expiration with
  | .ok url => ⟨.ok (some url), ["Presigned URL generated for " ++ file_name]⟩
  | .error .clientError => ⟨.ok none, ["Error generating presigned URL"]⟩
  | .error e => ⟨.error e, []⟩

/-- One element of the gallery_urls list built by create_photo_gallery. -/
structure PhotoEntry where
  filename : String
  url : String
  thumbnail_url : Option String
  deriving DecidableEq, Repr

/-- The gallery_info dict returned by create_photo_gallery; created_date is
datetime.now().isoformat(), passed in as `now`. -/
structure GalleryInfo where
  event_id : String
  created_date : String
  photo_count : Nat
  photos : List PhotoEntry
  access_code : String
  deriving DecidableEq, Repr

/-- The for-loop of create_photo_gallery (src/awsint.py lines 123-131):
for each photo, issue the main presigned URL; `if url:` (Python truthiness:
None and the empty string are falsy) build the entry, issuing the thumbnail
presigned URL as part of the entry.  An exception propagating out of either
generate_presigned_url call aborts the loop (it is caught by the catch-all
of create_photo_gallery).  Returns the entries (or the propagated
exception) and the log lines emitted so far. -/
def gallery_loop (presign : String → Nat → Except Exn String) (gdir : String) :
    List String → Except Exn (List PhotoEntry) × List String
  | [] => (.ok [], [])
  | photo :: rest =>
    let r := generate_presigned_url presign (gdir ++ photo) 3600
    match r.result with
    | .error e => (.error e, r.log)
    | .ok none =>
      let tail := gallery_loop presign gdir rest
      (tail.1, r.log ++ tail.2)
    | .ok (some u) =>
      if u.isEmpty then
        let tail := gallery_loop presign gdir rest
        (tail.1, r.log ++ tail.2)
      else
        let t := generate_presigned_url presign (gdir ++ "thumbnails/" ++ photo) 3600
        match t.result with
        | .error e => (.error e, r.log ++ t.log)
        | .ok tu =>
          let tail := gallery_loop presign gdir rest
          (Except.map (fun es => PhotoEntry.mk photo u tu :: es) tail.1,
            r.log ++ t.log ++ tail.2)

/-- Python str.upper of the ASCII strings used in src/awsint.py: upper-case
each character. -/
def py_upper (s : String) : String := ⟨s.data.map Char.toUpper⟩

/-- Python s[-6:] : the last six characters of s (the whole string when s is
shorter than six characters). -/
def last6 (s : String) : String := ⟨s.data.drop (s.data.length - 6)⟩

/-- AWSIntegration.create_photo_gallery (src/awsint.py lines 108-146).
Builds gallery_urls with the loop, then the gallery_info dict with
photo_count = len(gallery_urls) and access_code = "CM" + event_id[-6:]
upper-cased.  The bare `except Exception` converts any exception raised in
the body (in particular one propagating out of generate_presigned_url) to a
None result plus a log line. -/
def create_photo_gallery (presign : String → Nat → Except Exn String)
    (now event_id : String) (photo_list : List String) :
    GwResult (Option GalleryInfo) :=
  let gdir := "galleries/" ++ event_id ++ "/"
  let loop := gallery_loop presign gdir photo_list
  match loop.1 with
  | .error _ => ⟨.ok none, loop.2 ++ ["Error creating photo gallery"]⟩
  | .ok gallery_urls =>
    let info : GalleryInfo :=
      ⟨event_id, now, gallery_urls.length, gallery_urls,
        "CM" ++ py_upper (last6 event_id)⟩
    ⟨.ok (some info), loop.2 ++ ["Photo gallery created for event " ++ event_id]⟩

/-- AWSIntegration.send_notification_email (src/awsint.py lines 148-208).
`sendEmail` is the oracle for `self.ses_client.send_email` applied to
sender, recipient, subject and message (the static HTML framing around the
message is not modelled).  Catches ClientError and Exception, converting
each to False plus a log line; returns True on success. -/
def send_notification_email (sendEmail : String → String → String → String → Except Exn Unit)
    (recipient_email subject message sender_email : String) : GwResult Bool :=
  match sendEmail sender_email recipient_email subject message with
  | .ok _ => ⟨.ok true, ["Email sent successfully to " ++ recipient_email]⟩
  | .error .clientError => ⟨.ok false, ["Error sending email"]⟩
  | .error _ => ⟨.ok false, ["Unexpected error sending email"]⟩

/-- The phone-number normalization of send_sms_notification (src/awsint.py
lines 308-310): `if not phone_number.startswith("+91"): phone_number =
"+91" + phone_number`.  startswith is embedded as comparing the first three
characters against the plus, nine, one sequence. -/
def sms_target (phone_number : String) : String :=
  if phone_number.data.take 3 = ['+', '9', '1'] then phone_number
  else "+91" ++ phone_number

/-- AWSIntegration.send_sms_notification (src/awsint.py lines 296-325).
`publish` is the oracle for `self.sns_client.publish(PhoneNumber=...,
Message=...)`.  Normalizes the phone number, then publishes; catches
ClientError and Exception, converting each to False plus a log line. -/
def send_sms_notification (publish : String → String → Except Exn Unit)
    (phone_number message : String) : GwResult Bool :=
  let pn := sms_target phone_number
  match publish pn message with
  | .ok _ => ⟨.ok true, ["SMS sent successfully to " ++ pn]⟩
  | .error .clientError => ⟨.ok false, ["Error sending SMS"]⟩
  | .error _ => ⟨.ok false, ["Unexpected error sending SMS"]⟩

/- ------------------------------------------------------------------ -/
/- src/app.py : Flask handlers and the session flag                   -/
/- ------------------------------------------------------------------ -/

/-- The Flask session as far as src/app.py uses it: at most the single key
logged_in; `none` means the key is absent. -/
structure Session where
  logged_in : Option Bool
  deriving DecidableEq, Repr

/-- A handler outcome: render a template or redirect to a url. -/
inductive Response where
  | render (template : String)
  | redirect (target : String)
  deriving DecidableEq, Repr

/-- `session.get("logged_in", False)` (src/app.py line 17). -/
def session_get_logged_in (s : Session) : Bool := s.logged_in.getD false

/-- A session with no keys set (a fresh client). -/
def empty_session : Session := ⟨none⟩

/-- Handler for GET / (src/app.py lines 15-18). -/
def home (s : Session) : Response × Session := (.render "home.html", s)

/-- Handler for /book (src/app.py lines 20-25): on POST, redirect to
/success; on GET, render the form.  No other effect occurs in the source
(the booking logic is an unimplemented comment). -/
def book (is_post : Bool) (s : Session) : Response × Session :=
  if is_post then (.redirect "/success", s) else (.render "book.html", s)

/-- Handler for GET /photographers (src/app.py lines 27-29). -/
def photographer_page (s : Session) : Response × Session :=
  (.render "photographers.html", s)

/-- Handler for /login (src/app.py lines 31-37): on POST, set
session["logged_in"] = True and redirect home; on GET, render the form. -/
def login (is_post : Bool) (s : Session) : Response × Session :=
  if is_post then (.redirect "/", ⟨some true⟩) else (.render "login.html", s)

/-- Handler for GET /services (src/app.py lines 39-48). -/
def services (s : Session) : Response × Session := (.render "services.html", s)

/-- Handler for GET /success (src/app.py lines 50-52). -/
def success (s : Session) : Response × Session := (.render "success.html", s)

/-- Handler for /register (src/app.py lines 54-60): on POST, redirect to
/login; on GET, render the sign-up form. -/
def register (is_post : Bool) (s : Session) : Response × Session :=
  if is_post then (.redirect "/login", s) else (.render "sign_up.html", s)

/-- Handler for GET /logout (src/app.py lines 62-65):
session.pop("logged_in", None) then redirect home. -/
def logout (s : Session) : Response × Session :=
  (.redirect "/", { s with logged_in := none })

/-- The route table of src/app.py: every route-method pair the app serves. -/
inductive Request where
  | homeGet
  | bookGet
  | bookPost
  | photographersGet
  | loginGet
  | loginPost
  | servicesGet
  | successGet
  | registerGet
  | registerPost
  | logoutGet
  deriving DecidableEq, Repr

/-- Dispatch of one request to its handler from src/app.py. -/
def dispatch : Request → Session → Response × Session
  | .homeGet, s => home s
  | .bookGet, s => book false s
  | .bookPost, s => book true s
  | .photographersGet, s => photographer_page s
  | .loginGet, s => login false s
  | .loginPost, s => login true s
  | .servicesGet, s => services s
  | .successGet, s => success s
  | .registerGet, s => register false s
  | .registerPost, s => register true s
  | .logoutGet, s => logout s

/-- The /book handler paired with an explicit booking store, so that claims
about persistence can be stated.  The source handler (src/app.py book)
touches no store of any kind, so the store passes through unchanged. -/
def book_with_store (is_post : Bool) (s : Session) (store : List String) :
    Response × Session × List String :=
  let rs := book is_post s
  (rs.1, rs.2, store)

/- ------------------------------------------------------------------ -/
/- Helper predicates and lemmas about the gallery loop                 -/
/- ------------------------------------------------------------------ -/

/-- Model of the S3 client assumed by the gallery claims: every presign call
either succeeds or raises ClientError (the failure mode of a failed URL
issuance); no other exception kind arises in it. -/
def client_tame (presign : String → Nat → Except Exn String) : Prop :=
  ∀ k n, presign k n = Except.error Exn.clientError ∨ ∃ u, presign k n = Except.ok u

/-- Model of the S3 client: an issued presigned URL is never the empty
string. -/
def urls_nonempty (presign : String → Nat → Except Exn String) : Prop :=
  ∀ k n u, presign k n = Except.ok u → u.isEmpty = false

/-- The gallery entry produced for one filename by one iteration of the
create_photo_gallery loop: none when the main URL issuance fails with
ClientError or yields a falsy (empty) URL, otherwise the entry whose
thumbnail_url is the thumbnail issuance result (none on its ClientError). -/
def entry_for (presign : String → Nat → Except Exn String) (gdir photo : String) :
    Option PhotoEntry :=
  match presign (gdir ++ photo) 3600 with
  | .error _ => none
  | .ok u =>
    if u.isEmpty then none
    else some ⟨photo, u,
      match presign (gdir ++ "thumbnails/" ++ photo) 3600 with
      | .ok tu => some tu
      | .error _ => none⟩

lemma gallery_loop_tame (presign : String → Nat → Except Exn String)
    (h : client_tame presign) (gdir : String) (l : List String) :
    (gallery_loop presign gdir l).1 = Except.ok (l.filterMap (entry_for presign gdir)) := by
  induction l with
  | nil => rfl
  | cons photo rest ih =>
    rcases h (gdir ++ photo) 3600 with hp | ⟨u, hp⟩
    · simp [gallery_loop, generate_presigned_url, hp, entry_for, ih]
    · by_cases hu : u.isEmpty
      · simp [gallery_loop, generate_presigned_url, hp, hu, entry_for, ih]
      · rcases h (gdir ++ "thumbnails/" ++ photo) 3600 with ht | ⟨tu, ht⟩
        · simp [gallery_loop, generate_presigned_url, hp, hu, ht, entry_for, ih, Except.map]
        · simp [gallery_loop, generate_presigned_url, hp, hu, ht, entry_for, ih, Except.map]

lemma result_some_eq (presign : String → Nat → Except Exn String)
    (now event_id : String) (l : List String) (g : GalleryInfo)
    (h : (create_photo_gallery presign now event_id l).result = Except.ok (some g)) :
    ∃ entries,
      (gallery_loop presign ("galleries/" ++ event_id ++ "/") l).1 = Except.ok entries ∧
      g = ⟨event_id, now, entries.length, entries, "CM" ++ py_upper (last6 event_id)⟩ := by
  simp only [create_photo_gallery] at h
  cases hres : (gallery_loop presign ("galleries/" ++ event_id ++ "/") l).1 with
  | error e => rw [hres] at h; simp at h
  | ok entries =>
    rw [hres] at h
    simp at h
    exact ⟨entries, rfl, h.symm⟩

lemma create_photo_gallery_tame (presign : String → Nat → Except Exn String)
    (h : client_tame presign) (now event_id : String) (l : List String) :
    (create_photo_gallery presign now event_id l).result =
      Except.ok (some
        ⟨event_id, now,
          (l.filterMap (entry_for presign ("galleries/" ++ event_id ++ "/"))).length,
          l.filterMap (entry_for presign ("galleries/" ++ event_id ++ "/")),
          "CM" ++ py_upper (last6 event_id)⟩) := by
  simp [create_photo_gallery, gallery_loop_tame presign h]

lemma length_filterMap_lt {α β : Type} (f : α → Option β) (l : List α) (a : α)
    (ha : a ∈ l) (hf : f a = none) : (l.filterMap f).length < l.length := by
  induction l with
  | nil => cases ha
  | cons b rest ih =>
    rcases List.mem_cons.1 ha with rfl | hmem
    · rw [List.filterMap_cons, hf]
      exact Nat.lt_succ_of_le (List.length_filterMap_le f rest)
    · rw [List.filterMap_cons]
      cases hb : f b
      · exact Nat.lt_succ_of_lt (ih hmem)
      · simpa using Nat.succ_lt_succ (ih hmem)

lemma entry_for_filename (presign : String → Nat → Except Exn String)
    (gdir photo : String) (e : PhotoEntry)
    (h : entry_for presign gdir photo = some e) : e.filename = photo := by
  unfold entry_for at h
  cases hp : presign (gdir ++ photo) 3600 with
  | error e2 => rw [hp] at h; simp at h
  | ok u =>
    rw [hp] at h
    by_cases hu : u.isEmpty
    · simp [hu] at h
    · simp [hu] at h
      rw [← h]

lemma mem_map_filename (presign : String → Nat → Except Exn String)
    (gdir : String) (l : List String) (p : String) :
    (p ∈ (l.filterMap (entry_for presign gdir)).map PhotoEntry.filename) ↔
      (p ∈ l ∧ ∃ e, entry_for presign gdir p = some e) := by
  constructor
  · intro hp
    rcases List.mem_map.1 hp with ⟨e, he, hfn⟩
    rcases List.mem_filterMap.1 he with ⟨q, hq, hqe⟩
    have hq2 := entry_for_filename presign gdir q e hqe
    have hqp : q = p := by rw [← hq2, hfn]
    subst hqp
    exact ⟨hq, e, hqe⟩
  · rintro ⟨hp, e, he⟩
    exact List.mem_map.2
      ⟨e, List.mem_filterMap.2 ⟨p, hp, he⟩, entry_for_filename presign gdir p e he⟩

lemma entry_exists_iff (presign : String → Nat → Except Exn String)
    (hne : urls_nonempty presign) (gdir p : String) :
    (∃ e, entry_for presign gdir p = some e) ↔
      ∃ u, presign (gdir ++ p) 3600 = Except.ok u := by
  unfold entry_for
  cases hp : presign (gdir ++ p) 3600 with
  | error e2 => simp [hp]
  | ok u => simp [hp, hne _ _ _ hp]

lemma entry_for_thumb_none (presign : String → Nat → Except Exn String)
    (gdir p : String) (e : PhotoEntry)
    (h : entry_for presign gdir p = some e)
    (ht : presign (gdir ++ "thumbnails/" ++ p) 3600 = Except.error Exn.clientError) :
    e.thumbnail_url = none := by
  unfold entry_for at h
  cases hp : presign (gdir ++ p) 3600 with
  | error e2 => rw [hp] at h; simp at h
  | ok u =>
    rw [hp, ht] at h
    by_cases hu : u.isEmpty
    · simp [hu] at h
    · simp [hu] at h
      rw [← h]

/- ------------------------------------------------------------------ -/
/- Claim theorems                                                      -/
/- ------------------------------------------------------------------ -/

/-- C1 counterexample: at the concrete input (a POST to /book with an empty
booking store and a fresh session), the handler does redirect to /success,
but the booking store afterwards is still empty — no record was persisted
and no identifier assigned, refuting the claim that every POST to /book
invokes a booking workflow that persists a record. -/
theorem c1_counterexample :
    (book_with_store true empty_session []).1 = Response.redirect "/success" ∧
    (book_with_store true empty_session []).2.2 = ([] : List String) ∧
    ¬ (∀ store : List String,
        ((book_with_store true empty_session store).2.2).length = store.length + 1) := by
  refine ⟨rfl, rfl, ?_⟩
  intro hall
  have h0 := hall []
  simp [book_with_store, book] at h0

/-- C1 (amended): for every POST request to /book, the handler redirects
the client to /success and leaves the session and the booking store
unchanged; no booking workflow is invoked, no identifier is assigned and no
record is persisted (the booking logic in src/app.py is an unimplemented
comment). -/
theorem c1_book_post_redirect_only (is_post : Bool) (s : Session) (store : List String) :
    book_with_store true s store = (Response.redirect "/success", s, store) ∧
    (book_with_store is_post s store).2.2 = store :=
  ⟨rfl, rfl⟩

/-- C3: when the underlying presign call for a key fails with ClientError
(the modelled failure for a key that does not exist in the object store),
generate_presigned_url returns None, emits the failure log line, and
propagates no exception to its caller. -/
theorem c3_presign_missing_key (presign : String → Nat → Except Exn String)
    (file_name : String) (expiration : Nat)
    (h : presign file_name expiration = Except.error Exn.clientError) :
    (generate_presigned_url presign file_name expiration).result = Except.ok none ∧
    (generate_presigned_url presign file_name expiration).log
      = ["Error generating presigned URL"] := by
  simp [generate_presigned_url, h]

/-- Witness for C3 at a concrete always-failing client and key. -/
theorem c3_presign_missing_key_witness :
    (generate_presigned_url (fun _ _ => Except.error Exn.clientError) "missing.jpg" 3600).result
      = Except.ok none ∧
    (generate_presigned_url (fun _ _ => Except.error Exn.clientError) "missing.jpg" 3600).log
      = ["Error generating presigned URL"] :=
  c3_presign_missing_key (fun _ _ => Except.error Exn.clientError) "missing.jpg" 3600 rfl

/-- C4 counterexample: generate_presigned_url catches only ClientError, so
an unexpected (non-ClientError) exception arising in the client call
propagates across the gateway boundary instead of being converted to a
null result — refuting the claim that no exception ever propagates. -/
theorem c4_counterexample :
    (generate_presigned_url (fun _ _ => Except.error Exn.other) "photo.jpg" 3600).result
      = Except.error Exn.other := rfl

/-- C4 (amended): upload_photo, send_notification_email,
send_sms_notification and create_photo_gallery never let an exception
propagate: each catches every exception arising in it and converts it to a
None (respectively False) result while emitting a log entry; while
generate_presigned_url catches only ClientError (converted to None plus the
failure log line), and any other exception propagates unchanged to its
caller. -/
theorem c4_gateway_exception_conversion :
    (∀ (uploadFile : String → String → String → S3Metadata → Except Exn Unit)
        (bucket region now path name : String) (meta : Option PhotoMeta),
      returns_normally (upload_photo uploadFile bucket region now path name meta).result
        = true) ∧
    (∀ (sendEmail : String → String → String → String → Except Exn Unit)
        (recipient subject message sender : String),
      returns_normally
          (send_notification_email sendEmail recipient subject message sender).result
        = true) ∧
    (∀ (publish : String → String → Except Exn Unit) (phone message : String),
      returns_normally (send_sms_notification publish phone message).result = true) ∧
    (∀ (presign : String → Nat → Except Exn String) (now event_id : String)
        (l : List String),
      returns_normally (create_photo_gallery presign now event_id l).result = true) ∧
    (∀ (uploadFile : String → String → String → S3Metadata → Except Exn Unit)
        (bucket region now path name : String) (meta : Option PhotoMeta) (e : Exn),
      uploadFile path bucket name (mk_s3_metadata now meta) = Except.error e →
      (upload_photo uploadFile bucket region now path name meta).result = Except.ok none ∧
      (upload_photo uploadFile bucket region now path name meta).log ≠ []) ∧
    (∀ (sendEmail : String → String → String → String → Except Exn Unit)
        (recipient subject message sender : String) (e : Exn),
      sendEmail sender recipient subject message = Except.error e →
      (send_notification_email sendEmail recipient subject message sender).result
          = Except.ok false ∧
      (send_notification_email sendEmail recipient subject message sender).log ≠ []) ∧
    (∀ (publish : String → String → Except Exn Unit) (phone message : String) (e : Exn),
      publish (sms_target phone) message = Except.error e →
      (send_sms_notification publish phone message).result = Except.ok false ∧
      (send_sms_notification publish phone message).log ≠ []) ∧
    (∀ (presign : String → Nat → Except Exn String) (now event_id : String)
        (l : List String) (e : Exn),
      (gallery_loop presign ("galleries/" ++ event_id ++ "/") l).1 = Except.error e →
      (create_photo_gallery presign now event_id l).result = Except.ok none ∧
      (create_photo_gallery presign now event_id l).log ≠ []) ∧
    (∀ (presign : String → Nat → Except Exn String) (file_name : String)
        (expiration : Nat),
      presign file_name expiration = Except.error Exn.clientError →
      (generate_presigned_url presign file_name expiration).result = Except.ok none ∧
      (generate_presigned_url presign file_name expiration).log
        = ["Error generating presigned URL"]) ∧
    (∀ (presign : String → Nat → Except Exn String) (file_name : String)
        (expiration : Nat) (e : Exn),
      presign file_name expiration = Except.error e → e ≠ Exn.clientError →
      (generate_presigned_url presign file_name expiration).result = Except.error e) := by
  refine ⟨?_, ?_, ?_, ?_, ?_, ?_, ?_, ?_, ?_, ?_⟩
  · intro f bucket region now path name meta
    simp only [upload_photo]
    split <;> rfl
  · intro f recipient subject message sender
    simp only [send_notification_email]
    split <;> rfl
  · intro f phone message
    simp only [send_sms_notification]
    split <;> rfl
  · intro presign now event_id l
    simp only [create_photo_gallery]
    split <;> rfl
  · intro f bucket region now path name meta e he
    cases e <;> simp [upload_photo, he]
  · intro f recipient subject message sender e he
    cases e <;> simp [send_notification_email, he]
  · intro f phone message e he
    cases e <;> simp [send_sms_notification, he]
  · intro presign now event_id l e hloop
    simp [create_photo_gallery, hloop]
  · intro presign file_name expiration h
    simp [generate_presigned_url, h]
  · intro presign file_name expiration e he hne
    simp only [generate_presigned_url]
    rw [he]
    cases e with
    | clientError => exact absurd rfl hne
    | fileNotFound => rfl
    | other => rfl

/-- Witness for C4 (amended) at concrete clients: an unexpected exception in
upload_photo is converted to a None result with a log entry, while the same
exception kind raised in generate_presigned_url propagates. -/
theorem c4_gateway_exception_conversion_witness :
    ((upload_photo (fun _ _ _ _ => Except.error Exn.other) "capture-moments-photos"
        "ap-south-1" "2024-01-01T00:00:00" "local.jpg" "wedding/p.jpg" none).result
      = Except.ok none ∧
     (upload_photo (fun _ _ _ _ => Except.error Exn.other) "capture-moments-photos"
        "ap-south-1" "2024-01-01T00:00:00" "local.jpg" "wedding/p.jpg" none).log ≠ []) ∧
    (generate_presigned_url (fun _ _ => Except.error Exn.fileNotFound) "a.jpg" 3600).result
      = Except.error Exn.fileNotFound :=
  ⟨c4_gateway_exception_conversion.2.2.2.2.1 (fun _ _ _ _ => Except.error Exn.other)
      "capture-moments-photos" "ap-south-1" "2024-01-01T00:00:00" "local.jpg"
      "wedding/p.jpg" none Exn.other rfl,
   c4_gateway_exception_conversion.2.2.2.2.2.2.2.2.2
      (fun _ _ => Except.error Exn.fileNotFound) "a.jpg" 3600 Exn.fileNotFound rfl
      (by decide)⟩

/-- C5: every gallery returned by create_photo_gallery carries the access
code "CM" followed by the upper-cased last six characters of the event_id;
the last six characters of "wedding_001" upper-case to "NG_001", and the
gallery built for event "wedding_001" has access code "CMNG_001". -/
theorem c5_access_code_derivation :
    (∀ (presign : String → Nat → Except Exn String) (now event_id : String)
        (l : List String) (g : GalleryInfo),
      (create_photo_gallery presign now event_id l).result = Except.ok (some g) →
      g.access_code = "CM" ++ py_upper (last6 event_id)) ∧
    py_upper (last6 "wedding_001") = "NG_001" ∧
    (∃ g : GalleryInfo,
      (create_photo_gallery (fun _ _ => Except.error Exn.clientError)
          "2024-01-01T00:00:00" "wedding_001" ["photo1.jpg"]).result
        = Except.ok (some g) ∧
      g.access_code = "CMNG_001") := by
  refine ⟨?_, by decide, ?_⟩
  · intro presign now event_id l g h
    obtain ⟨entries, -, rfl⟩ := result_some_eq presign now event_id l g h
    rfl
  · exact ⟨⟨"wedding_001", "2024-01-01T00:00:00", 0, [], "CMNG_001"⟩, rfl, rfl⟩

/-- Witness for C5 at the concrete event "wedding_001". -/
theorem c5_access_code_derivation_witness :
    (⟨"wedding_001", "2024-01-01T00:00:00", 0, [], "CMNG_001"⟩
        : GalleryInfo).access_code = "CM" ++ py_upper (last6 "wedding_001") :=
  c5_access_code_derivation.1 (fun _ _ => Except.error Exn.clientError)
    "2024-01-01T00:00:00" "wedding_001" ["photo1.jpg"] _ rfl

/-- C6: send_sms_notification normalizes the phone number before sending: a
10-digit local number (all characters decimal digits) is prefixed with the
fixed country code +91, and a number already carrying that prefix is passed
through unchanged; when publication succeeds, the log shows the SMS went to
the normalized number. -/
theorem c6_sms_normalization (phone_number message : String)
    (publish : String → String → Except Exn Unit) :
    ((∀ c ∈ phone_number.data, c.isDigit = true) → phone_number.data.length = 10 →
      sms_target phone_number = "+91" ++ phone_number) ∧
    (phone_number.data.take 3 = ['+', '9', '1'] → sms_target phone_number = phone_number) ∧
    ((∀ pn m, publish pn m = Except.ok ()) →
      (send_sms_notification publish phone_number message).log
        = ["SMS sent successfully to " ++ sms_target phone_number]) := by
  refine ⟨?_, ?_, ?_⟩
  · intro hdig _
    unfold sms_target
    rw [if_neg]
    intro heq
    have hplus : '+' ∈ phone_number.data := by
      refine List.take_subset 3 _ ?_
      rw [heq]
      simp
    exact absurd (hdig '+' hplus) (by decide)
  · intro heq
    unfold sms_target
    rw [if_pos heq]
  · intro hpub
    simp [send_sms_notification, hpub]

/-- Witness for C6 at a concrete 10-digit local number and a concrete
already-prefixed number. -/
theorem c6_sms_normalization_witness :
    sms_target "9876543210" = "+91" ++ "9876543210" ∧
    sms_target "+919876543210" = "+919876543210" :=
  ⟨(c6_sms_normalization "9876543210" "" (fun _ _ => Except.ok ())).1
      (by decide) (by decide),
   (c6_sms_normalization "+919876543210" "" (fun _ _ => Except.ok ())).2.1 (by decide)⟩

/-- C10: for every phone number that does not start with +91 — including one
starting with a different international prefix — send_sms_notification sends
to exactly "+91" prepended to the original input. -/
theorem c10_sms_blind_prefixing (phone_number message : String)
    (publish : String → String → Except Exn Unit)
    (h : ¬ phone_number.data.take 3 = ['+', '9', '1'])
    (hpub : ∀ pn m, publish pn m = Except.ok ()) :
    sms_target phone_number = "+91" ++ phone_number ∧
    (send_sms_notification publish phone_number message).log
      = ["SMS sent successfully to " ++ ("+91" ++ phone_number)] := by
  have ht : sms_target phone_number = "+91" ++ phone_number := by
    unfold sms_target
    rw [if_neg h]
  exact ⟨ht, by simp [send_sms_notification, hpub, ht]⟩

/-- Witness for C10 at a number already carrying the +1 prefix: it is sent
as "+91+1...". -/
theorem c10_sms_blind_prefixing_witness :
    sms_target "+12025550123" = "+91" ++ "+12025550123" ∧
    (send_sms_notification (fun _ _ => Except.ok ()) "+12025550123" "Hi").log
      = ["SMS sent successfully to " ++ ("+91" ++ "+12025550123")] :=
  c10_sms_blind_prefixing "+12025550123" "Hi" (fun _ _ => Except.ok ())
    (by decide) (fun _ _ => rfl)

/-- C7: upload_photo returns None (and raises nothing) when the upload call
fails because the local file is missing, and on success returns the
deterministic URL composed of bucket, region and key. -/
theorem c7_upload_photo_contract
    (uploadFile : String → String → String → S3Metadata → Except Exn Unit)
    (bucket region now path name : String) (meta : Option PhotoMeta) :
    (uploadFile path bucket name (mk_s3_metadata now meta) = Except.error Exn.fileNotFound →
      (upload_photo uploadFile bucket region now path name meta).result = Except.ok none) ∧
    (uploadFile path bucket name (mk_s3_metadata now meta) = Except.ok () →
      (upload_photo uploadFile bucket region now path name meta).result
        = Except.ok (some ("https://" ++ bucket ++ ".s3." ++ region
            ++ ".amazonaws.com/" ++ name))) := by
  constructor
  · intro h
    simp [upload_photo, h]
  · intro h
    simp [upload_photo, h]

/-- Witness for C7 at a concrete missing file and a concrete successful
upload. -/
theorem c7_upload_photo_contract_witness :
    (upload_photo (fun _ _ _ _ => Except.error Exn.fileNotFound) "capture-moments-photos"
        "ap-south-1" "2024-01-01T00:00:00" "missing.jpg" "wedding/missing.jpg"
        none).result = Except.ok none ∧
    (upload_photo (fun _ _ _ _ => Except.ok ()) "capture-moments-photos" "ap-south-1"
        "2024-01-01T00:00:00" "local.jpg" "wedding/photo1.jpg" none).result
      = Except.ok (some ("https://" ++ "capture-moments-photos" ++ ".s3." ++ "ap-south-1"
          ++ ".amazonaws.com/" ++ "wedding/photo1.jpg")) :=
  ⟨(c7_upload_photo_contract (fun _ _ _ _ => Except.error Exn.fileNotFound)
      "capture-moments-photos" "ap-south-1" "2024-01-01T00:00:00" "missing.jpg"
      "wedding/missing.jpg" none).1 rfl,
   (c7_upload_photo_contract (fun _ _ _ _ => Except.ok ())
      "capture-moments-photos" "ap-south-1" "2024-01-01T00:00:00" "local.jpg"
      "wedding/photo1.jpg" none).2 rfl⟩

/-- C8: the session access gate is a two-state machine on the logged_in
flag: with no session the flag reads false; after any login POST it is
true; after a logout GET it is false; every other route leaves the session
unchanged. -/
theorem c8_session_flag_machine (s : Session) (r : Request) :
    session_get_logged_in empty_session = false ∧
    session_get_logged_in (dispatch Request.loginPost s).2 = true ∧
    session_get_logged_in (dispatch Request.logoutGet s).2 = false ∧
    (r ≠ Request.loginPost → r ≠ Request.logoutGet → (dispatch r s).2 = s) := by
  refine ⟨rfl, rfl, rfl, ?_⟩
  intro h1 h2
  cases r
  case loginPost => exact absurd rfl h1
  case logoutGet => exact absurd rfl h2
  all_goals rfl

/-- Witness for C8: a GET of the home page with a logged-in session leaves
the session unchanged. -/
theorem c8_session_flag_machine_witness :
    (dispatch Request.homeGet ⟨some true⟩).2 = (⟨some true⟩ : Session) :=
  (c8_session_flag_machine ⟨some true⟩ Request.homeGet).2.2.2 (by decide) (by decide)

/-- C2: when the main URL issuance fails (ClientError) for a filename of the
list, create_photo_gallery still returns a gallery record (not null), its
photo_count is strictly below the number of filenames, and the failing
filename is omitted from the photos list. -/
theorem c2_partial_gallery (presign : String → Nat → Except Exn String)
    (now event_id f : String) (photo_list : List String)
    (htame : client_tame presign) (hmem : f ∈ photo_list)
    (hfail : presign ("galleries/" ++ event_id ++ "/" ++ f) 3600
        = Except.error Exn.clientError) :
    ∃ g : GalleryInfo,
      (create_photo_gallery presign now event_id photo_list).result = Except.ok (some g) ∧
      g.photo_count < photo_list.length ∧
      f ∉ g.photos.map PhotoEntry.filename := by
  have hf : entry_for presign ("galleries/" ++ event_id ++ "/") f = none := by
    unfold entry_for
    rw [hfail]
  refine ⟨_, create_photo_gallery_tame presign htame now event_id photo_list, ?_, ?_⟩
  · show (photo_list.filterMap
        (entry_for presign ("galleries/" ++ event_id ++ "/"))).length < photo_list.length
    exact length_filterMap_lt _ photo_list f hmem hf
  · show f ∉ (photo_list.filterMap
        (entry_for presign ("galleries/" ++ event_id ++ "/"))).map PhotoEntry.filename
    rw [mem_map_filename]
    rintro ⟨-, e, he⟩
    rw [hf] at he
    cases he

/-- Concrete S3-client model for the C2 witness: the main URL of bad.jpg
fails with ClientError, everything else succeeds. -/
def c2_oracle : String → Nat → Except Exn String :=
  fun k _ =>
    if k = "galleries/e1/bad.jpg" then Except.error Exn.clientError else Except.ok "u"

/-- Witness for C2: of two filenames with bad.jpg failing, the gallery holds
fewer than two photos and omits bad.jpg. -/
theorem c2_partial_gallery_witness :
    ∃ g : GalleryInfo,
      (create_photo_gallery c2_oracle "2024-01-01T00:00:00" "e1"
          ["good.jpg", "bad.jpg"]).result = Except.ok (some g) ∧
      g.photo_count < (["good.jpg", "bad.jpg"] : List String).length ∧
      "bad.jpg" ∉ g.photos.map PhotoEntry.filename :=
  c2_partial_gallery c2_oracle "2024-01-01T00:00:00" "e1" "bad.jpg"
    ["good.jpg", "bad.jpg"]
    (by
      intro k n
      by_cases h : k = "galleries/e1/bad.jpg" <;> simp [c2_oracle, h])
    (by decide) rfl

/-- C9: every gallery record returned by create_photo_gallery has
photo_count equal to the length of its photos list; and (for a client that
fails only with ClientError and issues nonempty URLs) a filename appears in
the photos exactly when its main URL issuance succeeds — a thumbnail-only
failure keeps the photo and leaves its thumbnail_url null. -/
theorem c9_gallery_invariants :
    (∀ (presign : String → Nat → Except Exn String) (now event_id : String)
        (l : List String) (g : GalleryInfo),
      (create_photo_gallery presign now event_id l).result = Except.ok (some g) →
      g.photo_count = g.photos.length) ∧
    (∀ (presign : String → Nat → Except Exn String) (now event_id : String)
        (l : List String),
      client_tame presign → urls_nonempty presign →
      ∃ g : GalleryInfo,
        (create_photo_gallery presign now event_id l).result = Except.ok (some g) ∧
        (∀ p, p ∈ g.photos.map PhotoEntry.filename ↔
          (p ∈ l ∧ ∃ u,
            presign ("galleries/" ++ event_id ++ "/" ++ p) 3600 = Except.ok u)) ∧
        (∀ p, p ∈ l →
          (∃ u, presign ("galleries/" ++ event_id ++ "/" ++ p) 3600 = Except.ok u) →
          presign ("galleries/" ++ event_id ++ "/" ++ "thumbnails/" ++ p) 3600
            = Except.error Exn.clientError →
          ∃ e, e ∈ g.photos ∧ e.filename = p ∧ e.thumbnail_url = none)) := by
  constructor
  · intro presign now event_id l g h
    obtain ⟨entries, -, rfl⟩ := result_some_eq presign now event_id l g h
    rfl
  · intro presign now event_id l htame hne
    refine ⟨_, create_photo_gallery_tame presign htame now event_id l, ?_, ?_⟩
    · intro p
      show p ∈ (l.filterMap
          (entry_for presign ("galleries/" ++ event_id ++ "/"))).map PhotoEntry.filename ↔ _
      rw [mem_map_filename, entry_exists_iff presign hne]
    · intro p hp hu ht
      obtain ⟨e, he⟩ := (entry_exists_iff presign hne ("galleries/" ++ event_id ++ "/") p).2 hu
      refine ⟨e, ?_, entry_for_filename presign _ p e he,
        entry_for_thumb_none presign _ p e he ht⟩
      show e ∈ l.filterMap (entry_for presign ("galleries/" ++ event_id ++ "/"))
      exact List.mem_filterMap.2 ⟨p, hp, he⟩

/-- Concrete S3-client model for the C9 witness: the main URL of a.jpg
succeeds, its thumbnail URL fails with ClientError. -/
def c9_oracle : String → Nat → Except Exn String :=
  fun k _ =>
    if k = "galleries/e1/a.jpg" then Except.ok "u" else Except.error Exn.clientError

/-- Witness for C9 at a concrete one-photo gallery whose thumbnail issuance
fails: the photo is kept, photo_count matches, thumbnail_url is null. -/
theorem c9_gallery_invariants_witness :
    (⟨"e1", "2024-01-01T00:00:00", 1, [⟨"a.jpg", "u", none⟩], "CME1"⟩
        : GalleryInfo).photo_count
      = (⟨"e1", "2024-01-01T00:00:00", 1, [⟨"a.jpg", "u", none⟩], "CME1"⟩
        : GalleryInfo).photos.length :=
  c9_gallery_invariants.1 c9_oracle "2024-01-01T00:00:00" "e1" ["a.jpg"] _ rfl

end CaptureMoments
